import Mathlib

/-!
# Verification of the xvat session engine

Shallow embedding of the algorithmic core of the xvat fitness-session app:

* the catalog lookup `generate` (src/services/seshEngine.ts),
* the warm-up selector `generateWarmups` (selector variant with shuffled
  groups), embedded as `selectWarmups` over the shuffle outcomes,
* the duration estimators `calculateTotalDuration` (workout items) and
  `calculateTotalWarmupDuration` (warm-up items),
* the guided-warmup session state machine: `calculateNextWarmupState`,
  the 1-second tick, and the command handlers `togglePause`,
  `handleSkipPhase`, `skipWarmupItem`, `handleFinishEarly`.

JavaScript numbers used by this code are non-negative integers (seconds,
reps, sets, indices), so they are embedded as `Nat`; `Math.max(0, x - y)`
becomes truncated subtraction.  The completion callback
`onSessionComplete` is modelled as a `Bool` component of each handler's
result marking whether the callback was invoked.
-/

namespace Xvat

/-! ## Warm-up data model (seshEngine selector variant) -/

/-- A warm-up item, mirroring the `Warmup` interface of the selector
(`Description`, `Additional_Info`, `GripType`, `EdgeType`, `Duration_s`,
`Rest_s`, `Reps`, `Sets`, `RestBetweenSets_s`, `Intensity_Modifier`,
`target`). -/
structure Warmup where
  Description : String
  Additional_Info : String
  GripType : String
  EdgeType : String
  Duration_s : Nat
  Rest_s : Nat
  Reps : Nat
  Sets : Nat
  RestBetweenSets_s : Nat
  Intensity_Modifier : String
  target : List String
deriving DecidableEq, Repr

/-- Tags characterising the finger/wrist warm-up group. -/
def fingerTags : List String := ["finger", "finger_joints", "wrist", "grip_strength"]

/-- Tags characterising the scapula/upper-back warm-up group. -/
def scapulaTags : List String := ["scapula", "upper_back", "neck", "rotator_cuff"]

/-- `warmup.target.some((t) => [finger tags].includes(t))`. -/
def isFingerWarmup (w : Warmup) : Bool :=
  w.target.any (fun t => fingerTags.contains t)

/-- `warmup.target.some((t) => [scapula tags].includes(t))`. -/
def isScapulaWarmup (w : Warmup) : Bool :=
  w.target.any (fun t => scapulaTags.contains t)

/-- Per-item duration used by the selector's budget check:
`oneRepDuration = Duration_s + Rest_s;
 setDuration = oneRepDuration * Reps + RestBetweenSets_s;
 return setDuration * Sets`. -/
def calculateWarmupDuration (w : Warmup) : Nat :=
  ((w.Duration_s + w.Rest_s) * w.Reps + w.RestBetweenSets_s) * w.Sets

/-- `Math.min(Math.max(duration * 0.2, 2), 10) * 60`, in exact arithmetic:
multiplying the clamp through by 60 gives `min (max (duration*12) 120) 600`
(`duration * 0.2 * 60 = duration * 12` exactly). -/
def targetWarmupDuration (duration : Nat) : Nat :=
  min (max (duration * 12) 120) 600

/-- The required-category loops of `generateWarmups`: walk the (shuffled)
group, return the first item whose duration still fits the budget
(`accumulatedDuration + warmupDuration <= targetWarmupDuration`), and stop
there (`break` after the first success). -/
def pickRequired (targetDur acc : Nat) : List Warmup → Option Warmup
  | [] => none
  | w :: ws =>
    if acc + calculateWarmupDuration w ≤ targetDur then some w
    else pickRequired targetDur acc ws

/-- The optional-category loop of `generateWarmups`: add every item that
still fits the budget, stopping as soon as the accumulated duration
reaches the target. -/
def fillOptional (targetDur : Nat) (acc : Nat) : List Warmup → List Warmup
  | [] => []
  | w :: ws =>
    let d := calculateWarmupDuration w
    if acc + d ≤ targetDur then
      if targetDur ≤ acc + d then [w]
      else w :: fillOptional targetDur (acc + d) ws
    else
      if targetDur ≤ acc then []
      else fillOptional targetDur acc ws

/-- `generateWarmups` after the three uniform shuffles: the arguments are
the shuffled finger group, the shuffled scapula group and the shuffled
optional group; the accumulator threads exactly as in the source. -/
def selectWarmups (targetDur : Nat) (fingerList scapulaList optionalList : List Warmup) :
    List Warmup :=
  match pickRequired targetDur 0 fingerList with
  | none =>
    match pickRequired targetDur 0 scapulaList with
    | none => fillOptional targetDur 0 optionalList
    | some b => b :: fillOptional targetDur (calculateWarmupDuration b) optionalList
  | some a =>
    match pickRequired targetDur (calculateWarmupDuration a) scapulaList with
    | none => a :: fillOptional targetDur (calculateWarmupDuration a) optionalList
    | some b =>
      a :: b :: fillOptional targetDur
        (calculateWarmupDuration a + calculateWarmupDuration b) optionalList

/-- The spec's shared per-item duration formula
(`itemDuration = sets * (reps*workDuration + max(0, reps-1)*restBetweenReps)
 + max(0, sets-1)*restBetweenSets`), stated from the spec's words for
comparison with the duration the source code computes. -/
def specSharedItemDuration (w : Warmup) : Nat :=
  w.Sets * (w.Reps * w.Duration_s + (w.Reps - 1) * w.Rest_s) +
    (w.Sets - 1) * w.RestBetweenSets_s

/-- Total of the selector's own per-item durations over a selection. -/
def totalCodeDuration (l : List Warmup) : Nat :=
  (l.map calculateWarmupDuration).sum

/-- Total of the spec's shared per-item durations over a selection. -/
def totalSpecDuration (l : List Warmup) : Nat :=
  (l.map specSharedItemDuration).sum

/-! ## Workout exercise data model and duration estimator (GuidedSession) -/

/-- An exercise record of the workout catalog (`Exercise` in
seshEngine.ts): `GripType`, `EdgeType`, `HangDuration_s`,
`RestBetweenHangs_s`, `Reps`, `Sets`, `RestBetweenSets_min`,
`IntensityModifier`. -/
structure Exercise where
  GripType : String
  EdgeType : String
  HangDuration_s : Nat
  RestBetweenHangs_s : Nat
  Reps : Nat
  Sets : Nat
  RestBetweenSets_min : Nat
  IntensityModifier : String
deriving DecidableEq, Repr

/-- The validity filter of GuidedSession:
`ex.Sets > 0 && ex.Reps > 0 && ex.HangDuration_s > 0`. -/
def isValidExercise (ex : Exercise) : Bool :=
  decide (ex.Sets > 0) && decide (ex.Reps > 0) && decide (ex.HangDuration_s > 0)

/-- The `forEach` body of `calculateTotalDuration`, walking the list with
its index; `lastIndex = exercises.length - 1` so `i < lastIndex` is the
`index < exercises.length - 1` check. -/
def calcTotalAux (prep lastIndex : Nat) : Nat → List Exercise → Nat
  | _, [] => 0
  | i, ex :: rest =>
    (if isValidExercise ex then
      ex.Sets * (ex.Reps * ex.HangDuration_s + (ex.Reps - 1) * ex.RestBetweenHangs_s)
        + (if ex.Sets > 1 then (ex.Sets - 1) * ex.RestBetweenSets_min else 0)
        + (if i < lastIndex ∧ prep > 0 then prep else 0)
     else 0)
      + calcTotalAux prep lastIndex (i + 1) rest

/-- `calculateTotalDuration(exercises, initialPrepTime)`: starts with the
initial prep time when positive, adds every valid item's sets/reps/rest
time plus a prep charge before each non-last item, and returns 0 for an
empty list. -/
def calculateTotalDuration (exercises : List Exercise) (initialPrepTime : Nat) : Nat :=
  if exercises.isEmpty then 0
  else (if initialPrepTime > 0 then initialPrepTime else 0)
    + calcTotalAux initialPrepTime (exercises.length - 1) 0 exercises

/-! ## Warm-up duration estimator (GuidedWarmup) -/

/-- The validity filter of GuidedWarmup:
`wu.Sets > 0 && wu.Reps > 0 && wu.Duration_s > 0`. -/
def isValidWarmup (wu : Warmup) : Bool :=
  decide (wu.Sets > 0) && decide (wu.Reps > 0) && decide (wu.Duration_s > 0)

/-- The `forEach` body of `calculateTotalWarmupDuration`. -/
def calcWarmupAux (prep lastIndex : Nat) : Nat → List Warmup → Nat
  | _, [] => 0
  | i, wu :: rest =>
    (if isValidWarmup wu then
      wu.Sets * (wu.Reps * wu.Duration_s + (wu.Reps - 1) * wu.Rest_s)
        + (if wu.Sets > 1 then (wu.Sets - 1) * wu.RestBetweenSets_s else 0)
        + (if i < lastIndex ∧ prep > 0 then prep else 0)
     else 0)
      + calcWarmupAux prep lastIndex (i + 1) rest

/-- `calculateTotalWarmupDuration(warmups, initialPrepTime)`; the final
`Math.max(0, totalSeconds)` is the identity on `Nat`. -/
def calculateTotalWarmupDuration (warmups : List Warmup) (initialPrepTime : Nat) : Nat :=
  if warmups.isEmpty then 0
  else (if initialPrepTime > 0 then initialPrepTime else 0)
    + calcWarmupAux initialPrepTime (warmups.length - 1) 0 warmups

/-! ## Guided-warmup session state machine -/

/-- The phase enum of GuidedWarmup (`PREP | WORK | REST_REP | REST_SET |
FINISHED`). -/
inductive SessionPhase where
  | PREP
  | WORK
  | REST_REP
  | REST_SET
  | FINISHED
deriving DecidableEq, Repr

/-- The `SessionState` record of GuidedWarmup. -/
structure SessionState where
  currentWarmupIndex : Nat
  currentSet : Nat
  currentRep : Nat
  currentPhase : SessionPhase
  phaseTimeLeft : Nat
  totalTimeLeft : Nat
  isPaused : Bool
deriving DecidableEq, Repr

/-- The transition core returned by `calculateNextWarmupState`
(`Omit<SessionState, 'totalTimeLeft' | 'isPaused'>`). -/
structure NextCore where
  currentWarmupIndex : Nat
  currentSet : Nat
  currentRep : Nat
  currentPhase : SessionPhase
  phaseTimeLeft : Nat
deriving DecidableEq, Repr

/-- `calculateNextWarmupState(currentState, validWarmups, initialPrepTime)`:
the single state-machine transition taken when a phase ends.  The
`!warmup` safeguard (current index out of bounds) returns FINISHED. -/
def calculateNextWarmupState (validWarmups : List Warmup) (initialPrepTime : Nat)
    (s : SessionState) : NextCore :=
  match validWarmups[s.currentWarmupIndex]? with
  | none =>
    { currentWarmupIndex := s.currentWarmupIndex, currentSet := s.currentSet,
      currentRep := s.currentRep, currentPhase := .FINISHED, phaseTimeLeft := 0 }
  | some warmup =>
    match s.currentPhase with
    | .PREP =>
      { currentWarmupIndex := s.currentWarmupIndex, currentSet := s.currentSet,
        currentRep := s.currentRep, currentPhase := .WORK,
        phaseTimeLeft := warmup.Duration_s }
    | .WORK =>
      if s.currentRep < warmup.Reps then
        { currentWarmupIndex := s.currentWarmupIndex, currentSet := s.currentSet,
          currentRep := s.currentRep + 1, currentPhase := .REST_REP,
          phaseTimeLeft := warmup.Rest_s }
      else if s.currentSet < warmup.Sets then
        { currentWarmupIndex := s.currentWarmupIndex, currentSet := s.currentSet + 1,
          currentRep := 1, currentPhase := .REST_SET,
          phaseTimeLeft := warmup.RestBetweenSets_s }
      else if s.currentWarmupIndex < validWarmups.length - 1 then
        { currentWarmupIndex := s.currentWarmupIndex + 1, currentSet := 1,
          currentRep := 1, currentPhase := .PREP, phaseTimeLeft := initialPrepTime }
      else
        { currentWarmupIndex := s.currentWarmupIndex, currentSet := s.currentSet,
          currentRep := s.currentRep, currentPhase := .FINISHED, phaseTimeLeft := 0 }
    | .REST_REP =>
      { currentWarmupIndex := s.currentWarmupIndex, currentSet := s.currentSet,
        currentRep := s.currentRep, currentPhase := .WORK,
        phaseTimeLeft := warmup.Duration_s }
    | .REST_SET =>
      { currentWarmupIndex := s.currentWarmupIndex, currentSet := s.currentSet,
        currentRep := s.currentRep, currentPhase := .WORK,
        phaseTimeLeft := warmup.Duration_s }
    | .FINISHED =>
      { currentWarmupIndex := s.currentWarmupIndex, currentSet := s.currentSet,
        currentRep := s.currentRep, currentPhase := .FINISHED, phaseTimeLeft := 0 }

/-- One 1-second tick (the `setInterval` body): no-op when paused or
finished; otherwise decrement both countdowns (floored at 0) and, when the
phase countdown is exhausted, take one `calculateNextWarmupState`
transition.  The `Bool` component records whether `onSessionComplete` was
called (the tick transitioned into FINISHED). -/
def tickPair (vw : List Warmup) (prep : Nat) (s : SessionState) : SessionState × Bool :=
  if s.isPaused = true ∨ s.currentPhase = .FINISHED then (s, false)
  else
    let newPhaseTimeLeft := s.phaseTimeLeft - 1
    let newTotalTimeLeft := s.totalTimeLeft - 1
    if newPhaseTimeLeft > 0 then
      ({ s with phaseTimeLeft := newPhaseTimeLeft, totalTimeLeft := newTotalTimeLeft },
        false)
    else
      let core := calculateNextWarmupState vw prep s
      ({ currentWarmupIndex := core.currentWarmupIndex, currentSet := core.currentSet,
         currentRep := core.currentRep, currentPhase := core.currentPhase,
         phaseTimeLeft := core.phaseTimeLeft,
         totalTimeLeft :=
           if core.currentPhase = .FINISHED then 0 else newTotalTimeLeft,
         isPaused := s.isPaused },
       decide (core.currentPhase = .FINISHED ∧ s.currentPhase ≠ .FINISHED))

/-- The state component of a tick. -/
def tick (vw : List Warmup) (prep : Nat) (s : SessionState) : SessionState :=
  (tickPair vw prep s).1

/-- `togglePause`: flips `isPaused`, touches nothing else, has no guard. -/
def togglePause (s : SessionState) : SessionState :=
  { s with isPaused := !s.isPaused }

/-- `handleFinishEarly`: no-op (and no callback) when already FINISHED,
otherwise forces FINISHED with zeroed timers, sets `isPaused` and fires
the completion callback. -/
def handleFinishEarly (s : SessionState) : SessionState × Bool :=
  if s.currentPhase = .FINISHED then (s, false)
  else
    ({ s with
        currentPhase := .FINISHED, phaseTimeLeft := 0, totalTimeLeft := 0,
        isPaused := true }, true)

/-- `handleSkipPhase`: no-op when paused or finished; otherwise advance one
`calculateNextWarmupState` transition, subtract the skipped
`phaseTimeLeft` from `totalTimeLeft` (floored at 0, forced to 0 on
FINISHED) and fire the callback when landing on FINISHED. -/
def handleSkipPhase (vw : List Warmup) (prep : Nat) (s : SessionState) :
    SessionState × Bool :=
  if s.isPaused = true ∨ s.currentPhase = .FINISHED then (s, false)
  else
    let timeSkipped := s.phaseTimeLeft
    let core := calculateNextWarmupState vw prep s
    ({ currentWarmupIndex := core.currentWarmupIndex, currentSet := core.currentSet,
       currentRep := core.currentRep, currentPhase := core.currentPhase,
       phaseTimeLeft := core.phaseTimeLeft,
       totalTimeLeft :=
         if core.currentPhase = .FINISHED then 0 else s.totalTimeLeft - timeSkipped,
       isPaused := s.isPaused },
     decide (core.currentPhase = .FINISHED ∧ s.currentPhase ≠ .FINISHED))

/-- `skipWarmupItem`: no-op when paused or finished; jumps to PREP of the
next item when one exists (approximate total-time bookkeeping: subtract
the remaining phase time), else finishes the session and fires the
callback. -/
def skipWarmupItem (vw : List Warmup) (prep : Nat) (s : SessionState) :
    SessionState × Bool :=
  if s.isPaused = true ∨ s.currentPhase = .FINISHED then (s, false)
  else if s.currentWarmupIndex < vw.length - 1 then
    ({ s with
        currentPhase := .PREP, phaseTimeLeft := prep,
        currentWarmupIndex := s.currentWarmupIndex + 1, currentSet := 1,
        currentRep := 1,
        totalTimeLeft := s.totalTimeLeft - s.phaseTimeLeft }, false)
  else
    ({ s with currentPhase := .FINISHED, phaseTimeLeft := 0, totalTimeLeft := 0 },
      true)

/-- The initial state of GuidedWarmup: PREP with the prep countdown when
the valid item list is non-empty, FINISHED otherwise. -/
def initialState (validWarmups : List Warmup) (prep : Nat) : SessionState :=
  { currentWarmupIndex := 0, currentSet := 1, currentRep := 1,
    currentPhase := if validWarmups.length > 0 then .PREP else .FINISHED,
    phaseTimeLeft := if validWarmups.length > 0 then prep else 0,
    totalTimeLeft := calculateTotalWarmupDuration validWarmups prep,
    isPaused := false }

/-- The events a session processes: clock ticks and the four UI commands. -/
inductive Cmd where
  | clockTick
  | pauseCmd
  | skipPhaseCmd
  | skipItemCmd
  | finishEarlyCmd
deriving DecidableEq, Repr

/-- Dispatch one event to its handler; the `Bool` marks a completion
callback. -/
def stepCmd (vw : List Warmup) (prep : Nat) : Cmd → SessionState → SessionState × Bool
  | .clockTick, s => tickPair vw prep s
  | .pauseCmd, s => (togglePause s, false)
  | .skipPhaseCmd, s => handleSkipPhase vw prep s
  | .skipItemCmd, s => skipWarmupItem vw prep s
  | .finishEarlyCmd, s => handleFinishEarly s

/-- Run a whole event sequence, returning the final state and how many
times the completion callback fired. -/
def runSession (vw : List Warmup) (prep : Nat) : List Cmd → SessionState → SessionState × Nat
  | [], s => (s, 0)
  | c :: cs, s =>
    let r := stepCmd vw prep c s
    let rest := runSession vw prep cs r.1
    (rest.1, (if r.2 then 1 else 0) + rest.2)

/-- The phases visited while ticking `fuel` times, with consecutive
duplicates collapsed: the observable phase sequence of a run. -/
def phaseTrace (vw : List Warmup) (prep : Nat) : Nat → SessionState → List SessionPhase
  | 0, s => [s.currentPhase]
  | n + 1, s =>
    let t := tick vw prep s
    if t.currentPhase = s.currentPhase then phaseTrace vw prep n t
    else s.currentPhase :: phaseTrace vw prep n t

/-- The phase the spec's section 4.4 transition table prescribes for a
state whose countdown just reached 0, given the current item and the item
count.  Stated from the spec's words for comparison with the code. -/
def specTransitionPhase (item : Warmup) (itemCount : Nat) (s : SessionState) :
    SessionPhase :=
  match s.currentPhase with
  | .PREP => .WORK
  | .WORK =>
    if s.currentRep < item.Reps then .REST_REP
    else if s.currentSet < item.Sets then .REST_SET
    else if s.currentWarmupIndex + 1 < itemCount then .PREP
    else .FINISHED
  | .REST_REP => .WORK
  | .REST_SET => .WORK
  | .FINISHED => .FINISHED

/-! ## Catalog lookup (seshEngine.generate) -/

/-- A `Durations` table entry (`EstimatedWorkoutTime`, `Exercises`). -/
structure DurationEntry where
  EstimatedWorkoutTime : String
  Exercises : List Exercise
deriving DecidableEq, Repr

/-- An intensity level: description plus the duration table
(`Record<string, Duration | null>` embedded as an association list with
`Option` values for the nulls). -/
structure IntensityLevel where
  Description : String
  Durations : List (String × Option DurationEntry)
deriving DecidableEq, Repr

/-- A protocol: name, description and its intensity levels
(`Record<string, IntensityLevel>`). -/
structure Protocol where
  ProtocolName : String
  Description : String
  IntensityLevels : List (String × IntensityLevel)
deriving DecidableEq, Repr

/-- A lookup filter; the TS enums are strings at runtime and
`duration` is interpolated into a string key. -/
structure Filter where
  protocolName : String
  intensityLevel : String
  duration : Nat
deriving DecidableEq, Repr

/-- `generate(filter)`: resolves protocol, then intensity, then duration,
throwing (here: returning `.error`) with the source's exact message at the
most specific missing key; a `null` duration entry also fails the duration
lookup (`!durationData`). -/
def generate (protocols : List Protocol) (f : Filter) : Except String (List Exercise) :=
  match protocols.find? (fun p => p.ProtocolName == f.protocolName) with
  | none => .error ("Protocol '" ++ f.protocolName ++ "' not found.")
  | some protocol =>
    match protocol.IntensityLevels.lookup f.intensityLevel with
    | none =>
      .error ("Intensity level '" ++ f.intensityLevel ++ "' not found in protocol '"
        ++ f.protocolName ++ "'.")
    | some intensity =>
      match intensity.Durations.lookup (toString f.duration) with
      | none =>
        .error ("Duration '" ++ toString f.duration ++ "' not found in intensity level '"
          ++ f.intensityLevel ++ "' of protocol '" ++ f.protocolName ++ "'.")
      | some none =>
        .error ("Duration '" ++ toString f.duration ++ "' not found in intensity level '"
          ++ f.intensityLevel ++ "' of protocol '" ++ f.protocolName ++ "'.")
      | some (some durationData) => .ok durationData.Exercises

/-! ## Supporting lemmas: warm-up selector -/

theorem totalCodeDuration_nil : totalCodeDuration [] = 0 := rfl

theorem totalCodeDuration_cons (w : Warmup) (l : List Warmup) :
    totalCodeDuration (w :: l) = calculateWarmupDuration w + totalCodeDuration l := by
  simp [totalCodeDuration]

/-- The spec's shared per-item formula never exceeds the duration the
selector computes (the selector also counts a rest after the last rep of
each set and a set-rest after the last set). -/
theorem specSharedItemDuration_le (w : Warmup) :
    specSharedItemDuration w ≤ calculateWarmupDuration w := by
  unfold specSharedItemDuration calculateWarmupDuration
  calc w.Sets * (w.Reps * w.Duration_s + (w.Reps - 1) * w.Rest_s)
        + (w.Sets - 1) * w.RestBetweenSets_s
      ≤ w.Sets * (w.Reps * w.Duration_s + w.Reps * w.Rest_s)
        + w.Sets * w.RestBetweenSets_s := by
        gcongr <;> exact Nat.sub_le _ _
    _ = ((w.Duration_s + w.Rest_s) * w.Reps + w.RestBetweenSets_s) * w.Sets := by
        ring

theorem totalSpecDuration_le_totalCodeDuration (l : List Warmup) :
    totalSpecDuration l ≤ totalCodeDuration l := by
  induction l with
  | nil => simp [totalSpecDuration, totalCodeDuration]
  | cons w ws ih =>
    simp only [totalSpecDuration, totalCodeDuration, List.map_cons, List.sum_cons] at *
    exact Nat.add_le_add (specSharedItemDuration_le w) ih

/-- The optional-fill loop never exceeds the remaining budget. -/
theorem totalCodeDuration_fillOptional_le (targetDur : Nat) :
    ∀ (l : List Warmup) (acc : Nat),
      totalCodeDuration (fillOptional targetDur acc l) ≤ targetDur - acc := by
  intro l
  induction l with
  | nil => intro acc; simp [fillOptional, totalCodeDuration]
  | cons w ws ih =>
    intro acc
    simp only [fillOptional]
    split
    case isTrue h =>
      split
      case isTrue h2 =>
        rw [totalCodeDuration_cons, totalCodeDuration_nil]
        omega
      case isFalse h2 =>
        rw [totalCodeDuration_cons]
        have := ih (acc + calculateWarmupDuration w)
        omega
    case isFalse h =>
      split
      case isTrue h2 => simp [totalCodeDuration]
      case isFalse h2 => exact ih acc

/-- The required-category loop returns a member of its list that fits the
remaining budget. -/
theorem pickRequired_spec (targetDur : Nat) :
    ∀ (l : List Warmup) (acc : Nat) (w : Warmup),
      pickRequired targetDur acc l = some w →
      w ∈ l ∧ acc + calculateWarmupDuration w ≤ targetDur := by
  intro l
  induction l with
  | nil => intro acc w h; simp [pickRequired] at h
  | cons x xs ih =>
    intro acc w h
    simp only [pickRequired] at h
    split at h
    case isTrue hfit =>
      cases h
      exact ⟨List.mem_cons_self _ _, hfit⟩
    case isFalse hfit =>
      obtain ⟨hm, hle⟩ := ih acc w h
      exact ⟨List.mem_cons_of_mem _ hm, hle⟩

/-- The required-category loop succeeds whenever some member fits the
remaining budget. -/
theorem pickRequired_isSome (targetDur : Nat) :
    ∀ (l : List Warmup) (acc : Nat),
      (∃ x ∈ l, acc + calculateWarmupDuration x ≤ targetDur) →
      ∃ w, pickRequired targetDur acc l = some w := by
  intro l
  induction l with
  | nil => intro acc h; simp at h
  | cons x xs ih =>
    intro acc h
    simp only [pickRequired]
    split
    case isTrue hfit => exact ⟨x, rfl⟩
    case isFalse hfit =>
      apply ih
      obtain ⟨y, hy, hle⟩ := h
      rcases List.mem_cons.mp hy with rfl | hy'
      · exact absurd hle hfit
      · exact ⟨y, hy', hle⟩

theorem totalCodeDuration_selectWarmups_le (t : Nat) (fA fB fC : List Warmup) :
    totalCodeDuration (selectWarmups t fA fB fC) ≤ t := by
  unfold selectWarmups
  cases hA : pickRequired t 0 fA with
  | none =>
    cases hB : pickRequired t 0 fB with
    | none =>
      dsimp only
      have := totalCodeDuration_fillOptional_le t fC 0
      omega
    | some b =>
      dsimp only
      have hb := (pickRequired_spec t fB 0 b hB).2
      rw [totalCodeDuration_cons]
      have := totalCodeDuration_fillOptional_le t fC (calculateWarmupDuration b)
      omega
  | some a =>
    have ha := (pickRequired_spec t fA 0 a hA).2
    cases hB : pickRequired t (calculateWarmupDuration a) fB with
    | none =>
      dsimp only
      rw [hB]
      dsimp only
      rw [totalCodeDuration_cons]
      have := totalCodeDuration_fillOptional_le t fC (calculateWarmupDuration a)
      omega
    | some b =>
      dsimp only
      rw [hB]
      dsimp only
      have hb := (pickRequired_spec t fB (calculateWarmupDuration a) b hB).2
      rw [totalCodeDuration_cons, totalCodeDuration_cons]
      have := totalCodeDuration_fillOptional_le t fC
        (calculateWarmupDuration a + calculateWarmupDuration b)
      omega

/-! ## Claim C3 -/

/-- C3: for every session duration and every outcome of the three
shuffles, the selection returned by `generateWarmups` has total duration
at most `targetDurationSeconds = clamp(sessionDurationMinutes * 0.2, 2,
10) * 60` — both under the spec's shared per-item formula and under the
selector's own per-item formula. -/
theorem selectWarmups_total_within_target (d : Nat) (fA fB fC : List Warmup) :
    totalSpecDuration (selectWarmups (targetWarmupDuration d) fA fB fC)
        ≤ targetWarmupDuration d
      ∧ totalCodeDuration (selectWarmups (targetWarmupDuration d) fA fB fC)
        ≤ targetWarmupDuration d :=
  ⟨le_trans (totalSpecDuration_le_totalCodeDuration _)
      (totalCodeDuration_selectWarmups_le _ _ _ _),
    totalCodeDuration_selectWarmups_le _ _ _ _⟩

/-! ## Claim C4 -/

/-- A finger-group warm-up whose duration (110 s) individually fits the
10-minute-session budget of 120 s. -/
def cexFingerWarmup : Warmup :=
  { Description := "A", Additional_Info := "", GripType := "", EdgeType := "",
    Duration_s := 110, Rest_s := 0, Reps := 1, Sets := 1, RestBetweenSets_s := 0,
    Intensity_Modifier := "", target := ["finger"] }

/-- A scapula-group warm-up whose duration (110 s) individually fits the
10-minute-session budget of 120 s. -/
def cexScapulaWarmup : Warmup :=
  { Description := "B", Additional_Info := "", GripType := "", EdgeType := "",
    Duration_s := 110, Rest_s := 0, Reps := 1, Sets := 1, RestBetweenSets_s := 0,
    Intensity_Modifier := "", target := ["scapula"] }

/-- C4 counterexample: in the pool `[cexFingerWarmup, cexScapulaWarmup]`
with session duration 10 min (target 120 s), both group items individually
fit the budget, yet the selection (for the only possible shuffle outcome)
is `[cexFingerWarmup]` and contains no GroupB item: the GroupB pick must
fit the budget left after the GroupA pick, not the whole budget. -/
theorem selectWarmups_coverage_cex :
    isFingerWarmup cexFingerWarmup = true
      ∧ calculateWarmupDuration cexFingerWarmup ≤ targetWarmupDuration 10
      ∧ isScapulaWarmup cexScapulaWarmup = true
      ∧ calculateWarmupDuration cexScapulaWarmup ≤ targetWarmupDuration 10
      ∧ [cexFingerWarmup, cexScapulaWarmup].filter (fun w => isFingerWarmup w)
          = [cexFingerWarmup]
      ∧ [cexFingerWarmup, cexScapulaWarmup].filter (fun w => isScapulaWarmup w)
          = [cexScapulaWarmup]
      ∧ [cexFingerWarmup, cexScapulaWarmup].filter
          (fun w => !isFingerWarmup w && !isScapulaWarmup w) = []
      ∧ selectWarmups (targetWarmupDuration 10) [cexFingerWarmup] [cexScapulaWarmup] []
          = [cexFingerWarmup]
      ∧ ∀ w ∈ selectWarmups (targetWarmupDuration 10) [cexFingerWarmup]
          [cexScapulaWarmup] [], isScapulaWarmup w = false := by
  decide

/-- C4 (amended): a GroupA item is always selected when some GroupA item
individually fits the budget; a GroupB item is additionally guaranteed —
for every shuffle outcome — when for every individually-fitting GroupA
item `a` some GroupB item still fits the budget remaining after `a` (with
only "individually fits" for GroupB, coverage can fail, see the
counterexample). -/
theorem selectWarmups_coverage (pool : List Warmup) (t : Nat) (fA fB fC : List Warmup)
    (hA : fA.Perm (pool.filter (fun w => isFingerWarmup w)))
    (hB : fB.Perm (pool.filter (fun w => isScapulaWarmup w)))
    (hfit : ∃ a ∈ pool, isFingerWarmup a = true ∧ calculateWarmupDuration a ≤ t)
    (hrem : ∀ a ∈ pool, isFingerWarmup a = true → calculateWarmupDuration a ≤ t →
      ∃ b ∈ pool, isScapulaWarmup b = true ∧
        calculateWarmupDuration a + calculateWarmupDuration b ≤ t) :
    (∃ w ∈ selectWarmups t fA fB fC, isFingerWarmup w = true) ∧
      (∃ w ∈ selectWarmups t fA fB fC, isScapulaWarmup w = true) := by
  obtain ⟨a0, ha0pool, ha0f, ha0le⟩ := hfit
  have ha0A : a0 ∈ fA := by
    rw [hA.mem_iff, List.mem_filter]
    exact ⟨ha0pool, ha0f⟩
  obtain ⟨a, hpickA⟩ := pickRequired_isSome t fA 0 ⟨a0, ha0A, by omega⟩
  obtain ⟨haA, hale⟩ := pickRequired_spec t fA 0 a hpickA
  have haf : a ∈ pool.filter (fun w => isFingerWarmup w) := hA.mem_iff.mp haA
  rw [List.mem_filter] at haf
  obtain ⟨b0, hb0pool, hb0s, hb0le⟩ := hrem a haf.1 haf.2 (by omega)
  have hb0B : b0 ∈ fB := by
    rw [hB.mem_iff, List.mem_filter]
    exact ⟨hb0pool, hb0s⟩
  obtain ⟨b, hpickB⟩ :=
    pickRequired_isSome t fB (calculateWarmupDuration a) ⟨b0, hb0B, hb0le⟩
  obtain ⟨hbB, _⟩ := pickRequired_spec t fB (calculateWarmupDuration a) b hpickB
  have hbf : b ∈ pool.filter (fun w => isScapulaWarmup w) := hB.mem_iff.mp hbB
  rw [List.mem_filter] at hbf
  have hsel : selectWarmups t fA fB fC
      = a :: b :: fillOptional t
          (calculateWarmupDuration a + calculateWarmupDuration b) fC := by
    unfold selectWarmups
    rw [hpickA]
    dsimp only
    rw [hpickB]
  rw [hsel]
  refine ⟨⟨a, ?_, haf.2⟩, ⟨b, ?_, hbf.2⟩⟩
  · exact List.mem_cons_self _ _
  · exact List.mem_cons_of_mem _ (List.mem_cons_self _ _)

/-- C4 witness: the amended coverage theorem applied to the concrete pool
`[cexFingerWarmup, cexScapulaWarmup]` with the generous budget 600 s,
where both hypotheses hold. -/
theorem selectWarmups_coverage_witness :
    (∃ w ∈ selectWarmups 600 [cexFingerWarmup] [cexScapulaWarmup] [],
        isFingerWarmup w = true) ∧
      (∃ w ∈ selectWarmups 600 [cexFingerWarmup] [cexScapulaWarmup] [],
        isScapulaWarmup w = true) := by
  apply selectWarmups_coverage [cexFingerWarmup, cexScapulaWarmup] 600
    [cexFingerWarmup] [cexScapulaWarmup] []
  · decide
  · decide
  · exact ⟨cexFingerWarmup, by decide, by decide, by decide⟩
  · decide

/-! ## Claim C5 -/

/-- A valid warm-up item (`Duration_s = 7, Rest_s = 3, Reps = 2, Sets =
1`) on which the selector's per-item duration and the estimator's
single-item duration differ: 20 s versus 17 s. -/
def cexSharedFormulaItem : Warmup :=
  { Description := "", Additional_Info := "", GripType := "", EdgeType := "",
    Duration_s := 7, Rest_s := 3, Reps := 2, Sets := 1, RestBetweenSets_s := 0,
    Intensity_Modifier := "", target := [] }

/-- C5 counterexample: on `cexSharedFormulaItem` the selector's budget
formula gives 20, while the Duration Estimator (single item, zero prep)
and the spec's shared formula both give 17 — the selector does not use
the shared formula. -/
theorem selectorItemDuration_cex :
    calculateWarmupDuration cexSharedFormulaItem = 20
      ∧ calculateTotalWarmupDuration [cexSharedFormulaItem] 0 = 17
      ∧ specSharedItemDuration cexSharedFormulaItem = 17
      ∧ calculateWarmupDuration cexSharedFormulaItem
          ≠ calculateTotalWarmupDuration [cexSharedFormulaItem] 0 := by
  decide

/-- C5 (amended): for every valid item the Duration Estimator's
single-item zero-prep duration equals the spec's shared formula, while the
selector's per-item duration exceeds it by exactly
`Sets * restBetweenReps + restBetweenSets` (it bills a rest after the last
rep of every set and a set-rest after the last set). -/
theorem selectorItemDuration_vs_estimator (w : Warmup)
    (h1 : 1 ≤ w.Reps) (h2 : 1 ≤ w.Sets) (h3 : 1 ≤ w.Duration_s) :
    calculateWarmupDuration w
        = calculateTotalWarmupDuration [w] 0 + (w.Sets * w.Rest_s + w.RestBetweenSets_s)
      ∧ calculateTotalWarmupDuration [w] 0 = specSharedItemDuration w := by
  have hvalid : isValidWarmup w = true := by
    unfold isValidWarmup
    simp only [Bool.and_eq_true, decide_eq_true_eq]
    omega
  have hest : calculateTotalWarmupDuration [w] 0
      = w.Sets * (w.Reps * w.Duration_s + (w.Reps - 1) * w.Rest_s)
        + (w.Sets - 1) * w.RestBetweenSets_s := by
    have hsets : (if w.Sets > 1 then (w.Sets - 1) * w.RestBetweenSets_s else 0)
        = (w.Sets - 1) * w.RestBetweenSets_s := by
      split
      · rfl
      · have : w.Sets = 1 := by omega
        simp [this]
    simp [calculateTotalWarmupDuration, calcWarmupAux, hvalid, hsets]
  constructor
  · rw [hest]
    unfold calculateWarmupDuration
    obtain ⟨R, hR⟩ : ∃ k, w.Reps = k + 1 := ⟨w.Reps - 1, by omega⟩
    obtain ⟨S, hS⟩ : ∃ k, w.Sets = k + 1 := ⟨w.Sets - 1, by omega⟩
    rw [hR, hS]
    simp only [Nat.add_sub_cancel]
    ring
  · rw [hest]
    rfl

/-- C5 witness: the amended theorem evaluated at `cexSharedFormulaItem`
(20 = 17 + 1*3 + 0, and the estimator agrees with the shared formula). -/
theorem selectorItemDuration_vs_estimator_witness :
    calculateWarmupDuration cexSharedFormulaItem
        = calculateTotalWarmupDuration [cexSharedFormulaItem] 0
          + (cexSharedFormulaItem.Sets * cexSharedFormulaItem.Rest_s
            + cexSharedFormulaItem.RestBetweenSets_s)
      ∧ calculateTotalWarmupDuration [cexSharedFormulaItem] 0
        = specSharedItemDuration cexSharedFormulaItem :=
  selectorItemDuration_vs_estimator cexSharedFormulaItem (by decide) (by decide)
    (by decide)

/-! ## Supporting lemmas: duration estimator -/

/-- With zero prep time the estimator's fold ignores both indices. -/
theorem calcTotalAux_zero_prep_indices :
    ∀ (l : List Exercise) (li i li' i' : Nat),
      calcTotalAux 0 li i l = calcTotalAux 0 li' i' l := by
  intro l
  induction l with
  | nil => intros; rfl
  | cons ex rest ih =>
    intro li i li' i'
    simp only [calcTotalAux, gt_iff_lt, lt_self_iff_false, and_false, if_false]
    rw [ih li (i + 1) li' (i' + 1)]

/-- With zero prep time, dropping the invalid items does not change the
estimator's fold. -/
theorem calcTotalAux_zero_prep_filter :
    ∀ (l : List Exercise) (li i : Nat),
      calcTotalAux 0 li i (l.filter fun e => isValidExercise e)
        = calcTotalAux 0 li i l := by
  intro l
  induction l with
  | nil => intros; rfl
  | cons ex rest ih =>
    intro li i
    by_cases hv : isValidExercise ex = true
    · rw [List.filter_cons_of_pos hv]
      simp only [calcTotalAux, hv, if_true]
      rw [ih li (i + 1)]
    · have hv' : isValidExercise ex = false := by simpa using hv
      rw [List.filter_cons_of_neg (by simp [hv'])]
      rw [ih li i]
      conv_rhs => rw [calcTotalAux]
      rw [hv']
      simp only [Bool.false_eq_true, if_false, Nat.zero_add]
      exact calcTotalAux_zero_prep_indices rest li i li (i + 1)

/-- A list of invalid items contributes nothing to the fold. -/
theorem calcTotalAux_all_invalid :
    ∀ (l : List Exercise) (p li i : Nat),
      (∀ e ∈ l, isValidExercise e = false) → calcTotalAux p li i l = 0 := by
  intro l
  induction l with
  | nil => intros; rfl
  | cons ex rest ih =>
    intro p li i h
    have hx : isValidExercise ex = false := h ex (List.mem_cons_self _ _)
    simp only [calcTotalAux, hx, if_false, Bool.false_eq_true]
    rw [ih p li (i + 1) (fun e he => h e (List.mem_cons_of_mem _ he))]

/-! ## Claim C6 -/

/-- An invalid exercise (`Reps = 0`). -/
def cexInvalidExercise : Exercise :=
  { GripType := "", EdgeType := "", HangDuration_s := 7, RestBetweenHangs_s := 180,
    Reps := 0, Sets := 1, RestBetweenSets_min := 0, IntensityModifier := "" }

/-- C6 counterexample: with `prepSeconds = 5` the list holding only the
invalid item `cexInvalidExercise` estimates to 5, while the list with all
invalid items removed (the empty list) estimates to 0 — the invalid item
does affect the estimate, contradicting the claimed equality. -/
theorem estimateTotal_invalid_cex :
    isValidExercise cexInvalidExercise = false
      ∧ calculateTotalDuration [cexInvalidExercise] 5 = 5
      ∧ [cexInvalidExercise].filter (fun e => isValidExercise e) = []
      ∧ calculateTotalDuration
          ([cexInvalidExercise].filter fun e => isValidExercise e) 5 = 0
      ∧ calculateTotalDuration [cexInvalidExercise] 5
          ≠ calculateTotalDuration
              ([cexInvalidExercise].filter fun e => isValidExercise e) 5 := by
  decide

/-- C6 (amended): an invalid item contributes no duration and no prep
charge of its own, and the session machine — built on the filtered list —
only ever schedules valid items; but invalid items still count toward the
estimator's emptiness and last-index checks, so `estimateTotal` of a list
equals `estimateTotal` of the filtered list when `prepSeconds = 0`, while
with positive prep a non-empty all-invalid list returns the initial prep
time instead of 0. -/
theorem estimateTotal_skips_invalid (l : List Exercise) (p : Nat) :
    calculateTotalDuration l 0
        = calculateTotalDuration (l.filter fun e => isValidExercise e) 0
      ∧ ((∀ e ∈ l, isValidExercise e = false) → l ≠ [] →
          calculateTotalDuration l p = if p > 0 then p else 0)
      ∧ (∀ (i : Nat) (e : Exercise),
          (l.filter fun e => isValidExercise e)[i]? = some e →
          isValidExercise e = true) := by
  refine ⟨?_, ?_, ?_⟩
  · rcases l with _ | ⟨x, xs⟩
    · rfl
    · rcases hf : (x :: xs).filter (fun e => isValidExercise e) with _ | ⟨y, ys⟩
      · rw [calculateTotalDuration, calculateTotalDuration]
        simp only [List.isEmpty_cons, List.isEmpty_nil, if_true, Bool.false_eq_true,
          if_false]
        rw [← calcTotalAux_zero_prep_filter (x :: xs), hf]
        simp [calcTotalAux]
      · rw [calculateTotalDuration, calculateTotalDuration]
        simp only [List.isEmpty_cons, Bool.false_eq_true, if_false]
        rw [← calcTotalAux_zero_prep_filter (x :: xs), hf,
          calcTotalAux_zero_prep_indices (y :: ys) ((x :: xs).length - 1) 0
            ((y :: ys).length - 1) 0]
  · intro hall hne
    rw [calculateTotalDuration,
      calcTotalAux_all_invalid l p (l.length - 1) 0 hall]
    have : l.isEmpty = false := by
      rcases l with _ | ⟨x, xs⟩
      · exact absurd rfl hne
      · rfl
    rw [this]
    simp
  · intro i e he
    have hmem : e ∈ l.filter fun e => isValidExercise e :=
      List.getElem?_mem he
    exact (List.mem_filter.mp hmem).2

/-! ## Claim C7 -/

/-- C7: `generate` resolves protocol, then intensity, then duration, and
fails at the most specific missing key with the source's exact message —
the protocol message names the protocol, the intensity message names
intensity and protocol, the duration message names duration, intensity
and protocol; on failure only an error is returned, and when every key
resolves the exercise list is returned. -/
theorem generate_lookup_messages (ps : List Protocol) (f : Filter) :
    (ps.find? (fun p => p.ProtocolName == f.protocolName) = none →
      generate ps f = .error ("Protocol '" ++ f.protocolName ++ "' not found."))
    ∧ (∀ protocol,
        ps.find? (fun p => p.ProtocolName == f.protocolName) = some protocol →
        protocol.IntensityLevels.lookup f.intensityLevel = none →
        generate ps f = .error ("Intensity level '" ++ f.intensityLevel
          ++ "' not found in protocol '" ++ f.protocolName ++ "'."))
    ∧ (∀ protocol intensity,
        ps.find? (fun p => p.ProtocolName == f.protocolName) = some protocol →
        protocol.IntensityLevels.lookup f.intensityLevel = some intensity →
        (intensity.Durations.lookup (toString f.duration) = none ∨
          intensity.Durations.lookup (toString f.duration) = some none) →
        generate ps f = .error ("Duration '" ++ toString f.duration
          ++ "' not found in intensity level '" ++ f.intensityLevel
          ++ "' of protocol '" ++ f.protocolName ++ "'."))
    ∧ (∀ protocol intensity durationData,
        ps.find? (fun p => p.ProtocolName == f.protocolName) = some protocol →
        protocol.IntensityLevels.lookup f.intensityLevel = some intensity →
        intensity.Durations.lookup (toString f.duration) = some (some durationData) →
        generate ps f = .ok durationData.Exercises) := by
  refine ⟨?_, ?_, ?_, ?_⟩
  · intro h
    unfold generate
    rw [h]
  · intro protocol h1 h2
    unfold generate
    rw [h1]
    dsimp only
    rw [h2]
  · intro protocol intensity h1 h2 h3
    unfold generate
    rw [h1]
    dsimp only
    rw [h2]
    dsimp only
    rcases h3 with h3 | h3 <;> rw [h3]
  · intro protocol intensity durationData h1 h2 h3
    unfold generate
    rw [h1]
    dsimp only
    rw [h2]
    dsimp only
    rw [h3]

/-! ## Claim C10 -/

/-- The catalog row of the engine's own test: one exercise under
("Short Maximal Hangs", "Low", "10"), plus a `null` duration entry. -/
def sampleExercise : Exercise :=
  { GripType := "Half-Crimp", EdgeType := "Medium Edge (20mm)", HangDuration_s := 7,
    RestBetweenHangs_s := 180, Reps := 3, Sets := 1, RestBetweenSets_min := 0,
    IntensityModifier := "Bodyweight or moderate added weight" }

/-- A one-protocol catalog used to exercise `generate` concretely. -/
def sampleCatalog : List Protocol :=
  [{ ProtocolName := "Short Maximal Hangs", Description := "d",
     IntensityLevels :=
       [("Low", { Description := "i",
                  Durations := [("10", some { EstimatedWorkoutTime := "~10 min",
                                              Exercises := [sampleExercise] }),
                                ("15", none)] })] }]

/-- C10: catalog lookup is deterministic — two invocations of `generate`
against the same catalog and filter produce the same outcome (identical
exercise list or identical error message); the embedding is a pure
function of the catalog, which the source never writes to. -/
theorem generate_deterministic (ps : List Protocol) (f : Filter)
    (r1 r2 : Except String (List Exercise))
    (h1 : generate ps f = r1) (h2 : generate ps f = r2) : r1 = r2 := by
  rw [← h1, ← h2]

/-- C10 witness: both invocations on the sample catalog return the same
single-exercise list. -/
theorem generate_deterministic_witness :
    (Except.ok [sampleExercise] : Except String (List Exercise))
      = Except.ok [sampleExercise] :=
  generate_deterministic sampleCatalog
    { protocolName := "Short Maximal Hangs", intensityLevel := "Low", duration := 10 }
    (Except.ok [sampleExercise]) (Except.ok [sampleExercise]) rfl rfl

/-! ## Claim C9 -/

/-- A FINISHED, unpaused state. -/
def cexFinishedState : SessionState :=
  { currentWarmupIndex := 0, currentSet := 1, currentRep := 1,
    currentPhase := .FINISHED, phaseTimeLeft := 0, totalTimeLeft := 0,
    isPaused := false }

/-- C9 counterexample: `togglePause` in a FINISHED state is not a no-op —
it still flips `isPaused` (the handler has no FINISHED guard), so the
command table's "all commands are no-ops when `phase==FINISHED`" does not
apply to `togglePause`. -/
theorem togglePause_finished_cex :
    cexFinishedState.currentPhase = SessionPhase.FINISHED
      ∧ (togglePause cexFinishedState).isPaused = true
      ∧ togglePause cexFinishedState ≠ cexFinishedState := by
  decide

/-- C9 (amended): in every state — FINISHED included — `togglePause`
flips `isPaused` and leaves phase, both timers, item index, set and rep
unchanged; it is always allowed, and the no-op-when-FINISHED rule does
not hold for it. -/
theorem togglePause_flips_only (s : SessionState) :
    (togglePause s).isPaused = !s.isPaused
      ∧ (togglePause s).currentPhase = s.currentPhase
      ∧ (togglePause s).phaseTimeLeft = s.phaseTimeLeft
      ∧ (togglePause s).totalTimeLeft = s.totalTimeLeft
      ∧ (togglePause s).currentWarmupIndex = s.currentWarmupIndex
      ∧ (togglePause s).currentSet = s.currentSet
      ∧ (togglePause s).currentRep = s.currentRep :=
  ⟨rfl, rfl, rfl, rfl, rfl, rfl, rfl⟩

/-! ## Supporting lemmas: state machine transitions -/

/-- `calculateNextWarmupState` reads only the phase, index, set and rep:
the two countdown fields are irrelevant. -/
theorem calculateNextWarmupState_counters (vw : List Warmup) (prep : Nat)
    (s : SessionState) (a b : Nat) :
    calculateNextWarmupState vw prep
        { s with phaseTimeLeft := a, totalTimeLeft := b }
      = calculateNextWarmupState vw prep s := rfl

/-- When the current item exists, the phase `calculateNextWarmupState`
moves to is exactly the phase the spec's section 4.4 table prescribes. -/
theorem calculateNextWarmupState_phase (vw : List Warmup) (prep : Nat)
    (s : SessionState) (item : Warmup)
    (hitem : vw[s.currentWarmupIndex]? = some item) :
    (calculateNextWarmupState vw prep s).currentPhase
      = specTransitionPhase item vw.length s := by
  unfold calculateNextWarmupState specTransitionPhase
  rw [hitem]
  cases s.currentPhase
  case PREP => rfl
  case WORK =>
    dsimp only
    split_ifs with h1 h2 h3 h4 <;> first | rfl | omega
  case REST_REP => rfl
  case REST_SET => rfl
  case FINISHED => rfl

/-! ## Claim C2 -/

/-- A warm-up item with two reps and one set. -/
def cexSkipWarmup : Warmup :=
  { Description := "", Additional_Info := "", GripType := "", EdgeType := "",
    Duration_s := 2, Rest_s := 2, Reps := 2, Sets := 1, RestBetweenSets_s := 0,
    Intensity_Modifier := "", target := [] }

/-- A running WORK state (last rep, last set) with `phaseTimeLeft = 5`
and `totalTimeLeft = 100`. -/
def cexSkipState : SessionState :=
  { currentWarmupIndex := 0, currentSet := 1, currentRep := 2,
    currentPhase := .WORK, phaseTimeLeft := 5, totalTimeLeft := 100,
    isPaused := false }

/-- C2 counterexample: skipping the last WORK phase lands on FINISHED and
the handler forces `totalTimeLeft` to 0 instead of deducting the skipped
`phaseSecondsLeft` (which would leave 100 - 5 = 95). -/
theorem skipPhase_total_cex :
    cexSkipState.isPaused = false
      ∧ cexSkipState.currentPhase ≠ SessionPhase.FINISHED
      ∧ (handleSkipPhase [cexSkipWarmup] 2 cexSkipState).1.currentPhase
          = SessionPhase.FINISHED
      ∧ cexSkipState.totalTimeLeft - cexSkipState.phaseTimeLeft = 95
      ∧ (handleSkipPhase [cexSkipWarmup] 2 cexSkipState).1.totalTimeLeft = 0
      ∧ (handleSkipPhase [cexSkipWarmup] 2 cexSkipState).1.totalTimeLeft
          ≠ cexSkipState.totalTimeLeft - cexSkipState.phaseTimeLeft := by
  decide

/-- C2 (amended): from every non-FINISHED, unpaused state whose current
item exists, `skipPhase` moves the phase to exactly the value the section
4.4 table prescribes (a pure function of the state — wall-clock time does
not appear), deducts the skipped `phaseSecondsLeft` from
`totalSecondsLeft` (floor at 0) whenever the new phase is not FINISHED,
forces `totalSecondsLeft` to 0 when it is, and fires the completion
notification exactly when the new phase is FINISHED. -/
theorem skipPhase_matches_table (vw : List Warmup) (prep : Nat) (s : SessionState)
    (item : Warmup) (hitem : vw[s.currentWarmupIndex]? = some item)
    (hp : s.isPaused = false) (hf : s.currentPhase ≠ SessionPhase.FINISHED) :
    (handleSkipPhase vw prep s).1.currentPhase = specTransitionPhase item vw.length s
      ∧ ((handleSkipPhase vw prep s).1.currentPhase ≠ SessionPhase.FINISHED →
          (handleSkipPhase vw prep s).1.totalTimeLeft
            = s.totalTimeLeft - s.phaseTimeLeft)
      ∧ ((handleSkipPhase vw prep s).1.currentPhase = SessionPhase.FINISHED →
          (handleSkipPhase vw prep s).1.totalTimeLeft = 0)
      ∧ ((handleSkipPhase vw prep s).2 = true ↔
          (handleSkipPhase vw prep s).1.currentPhase = SessionPhase.FINISHED) := by
  have hguard : ¬(s.isPaused = true ∨ s.currentPhase = SessionPhase.FINISHED) := by
    simp [hp, hf]
  unfold handleSkipPhase
  rw [if_neg hguard]
  dsimp only
  refine ⟨calculateNextWarmupState_phase vw prep s item hitem, ?_, ?_, ?_⟩
  · intro hne
    rw [if_neg hne]
  · intro he
    rw [if_pos he]
  · simp [hf]

/-- A fresh PREP state over `[cexSkipWarmup]`. -/
def cexPrepState : SessionState :=
  { currentWarmupIndex := 0, currentSet := 1, currentRep := 1,
    currentPhase := .PREP, phaseTimeLeft := 2, totalTimeLeft := 10,
    isPaused := false }

/-- C2 witness: the amended theorem at the concrete PREP state — the skip
lands on WORK as the table says, deducts the 2 skipped seconds, and fires
no notification. -/
theorem skipPhase_matches_table_witness :
    (handleSkipPhase [cexSkipWarmup] 2 cexPrepState).1.currentPhase
        = specTransitionPhase cexSkipWarmup (List.length [cexSkipWarmup]) cexPrepState
      ∧ ((handleSkipPhase [cexSkipWarmup] 2 cexPrepState).1.currentPhase
            ≠ SessionPhase.FINISHED →
          (handleSkipPhase [cexSkipWarmup] 2 cexPrepState).1.totalTimeLeft
            = cexPrepState.totalTimeLeft - cexPrepState.phaseTimeLeft)
      ∧ ((handleSkipPhase [cexSkipWarmup] 2 cexPrepState).1.currentPhase
            = SessionPhase.FINISHED →
          (handleSkipPhase [cexSkipWarmup] 2 cexPrepState).1.totalTimeLeft = 0)
      ∧ ((handleSkipPhase [cexSkipWarmup] 2 cexPrepState).2 = true ↔
          (handleSkipPhase [cexSkipWarmup] 2 cexPrepState).1.currentPhase
            = SessionPhase.FINISHED) :=
  skipPhase_matches_table [cexSkipWarmup] 2 cexPrepState cexSkipWarmup rfl rfl
    (by decide)

/-! ## Supporting lemmas: completion notification accounting -/

/-- From a FINISHED state no event changes the phase or fires the
notification (though `togglePause` may still flip the pause flag). -/
theorem stepCmd_finished (vw : List Warmup) (prep : Nat) (c : Cmd) (s : SessionState)
    (h : s.currentPhase = SessionPhase.FINISHED) :
    (stepCmd vw prep c s).1.currentPhase = SessionPhase.FINISHED
      ∧ (stepCmd vw prep c s).2 = false := by
  cases c <;>
    simp [stepCmd, tickPair, togglePause, handleSkipPhase, skipWarmupItem,
      handleFinishEarly, h]

/-- An event fires the completion notification exactly when it moves the
session from a non-FINISHED phase into FINISHED. -/
theorem stepCmd_fired_iff (vw : List Warmup) (prep : Nat) (c : Cmd) (s : SessionState) :
    (stepCmd vw prep c s).2 = true
      ↔ (s.currentPhase ≠ SessionPhase.FINISHED
          ∧ (stepCmd vw prep c s).1.currentPhase = SessionPhase.FINISHED) := by
  cases c
  case clockTick =>
    simp only [stepCmd, tickPair]
    split_ifs with h1 h2 h3
    · constructor
      · intro h; simp at h
      · rintro ⟨hs, hfin⟩
        rcases h1 with h1 | h1
        · exact absurd hfin hs
        · exact absurd h1 hs
    · push_neg at h1
      constructor
      · intro h; simp at h
      · rintro ⟨hs, hfin⟩
        exact absurd hfin hs
    · push_neg at h1
      constructor
      · intro h
        have hh := of_decide_eq_true h
        exact ⟨hh.2, hh.1⟩
      · rintro ⟨hs, hfin⟩
        exact decide_eq_true ⟨hfin, hs⟩
    · push_neg at h1
      constructor
      · intro h
        have hh := of_decide_eq_true h
        exact ⟨hh.2, hh.1⟩
      · rintro ⟨hs, hfin⟩
        exact decide_eq_true ⟨hfin, hs⟩
  case pauseCmd =>
    constructor
    · intro h; simp [stepCmd] at h
    · rintro ⟨hs, hfin⟩
      exact absurd hfin hs
  case skipPhaseCmd =>
    simp only [stepCmd, handleSkipPhase]
    split_ifs with h1 h2
    · constructor
      · intro h; simp at h
      · rintro ⟨hs, hfin⟩
        rcases h1 with h1 | h1
        · exact absurd hfin hs
        · exact absurd h1 hs
    · push_neg at h1
      constructor
      · intro h
        have hh := of_decide_eq_true h
        exact ⟨hh.2, hh.1⟩
      · rintro ⟨hs, hfin⟩
        exact decide_eq_true ⟨hfin, hs⟩
    · push_neg at h1
      constructor
      · intro h
        have hh := of_decide_eq_true h
        exact ⟨hh.2, hh.1⟩
      · rintro ⟨hs, hfin⟩
        exact decide_eq_true ⟨hfin, hs⟩
  case skipItemCmd =>
    simp only [stepCmd, skipWarmupItem]
    split_ifs with h1 h2
    · constructor
      · intro h; simp at h
      · rintro ⟨hs, hfin⟩
        rcases h1 with h1 | h1
        · exact absurd hfin hs
        · exact absurd h1 hs
    · push_neg at h1
      constructor
      · intro h; simp at h
      · rintro ⟨hs, hfin⟩
        exact absurd hfin (by decide)
    · push_neg at h1
      constructor
      · intro h
        exact ⟨h1.2, rfl⟩
      · intro h
        rfl
  case finishEarlyCmd =>
    simp only [stepCmd, handleFinishEarly]
    split_ifs with h1
    · constructor
      · intro h; simp at h
      · rintro ⟨hs, _⟩
        exact absurd h1 hs
    · constructor
      · intro h
        exact ⟨h1, rfl⟩
      · intro h
        rfl

/-- FINISHED is absorbing across whole event sequences. -/
theorem runSession_finished (vw : List Warmup) (prep : Nat) :
    ∀ (cmds : List Cmd) (s : SessionState),
      s.currentPhase = SessionPhase.FINISHED →
      (runSession vw prep cmds s).1.currentPhase = SessionPhase.FINISHED := by
  intro cmds
  induction cmds with
  | nil => intro s h; exact h
  | cons c cs ih =>
    intro s h
    rw [runSession]
    exact ih _ (stepCmd_finished vw prep c s h).1

/-- Over any whole event sequence the completion notification fires once
when the run crosses into FINISHED and never otherwise. -/
theorem runSession_fires (vw : List Warmup) (prep : Nat) :
    ∀ (cmds : List Cmd) (s : SessionState),
      (runSession vw prep cmds s).2
        = if s.currentPhase ≠ SessionPhase.FINISHED
              ∧ (runSession vw prep cmds s).1.currentPhase = SessionPhase.FINISHED
          then 1 else 0 := by
  intro cmds
  induction cmds with
  | nil =>
    intro s
    rw [runSession, if_neg]
    rintro ⟨h1, h2⟩
    exact h1 h2
  | cons c cs ih =>
    intro s
    rw [runSession]
    dsimp only
    rw [ih (stepCmd vw prep c s).1]
    by_cases hF : s.currentPhase = SessionPhase.FINISHED
    · obtain ⟨hph, hb⟩ := stepCmd_finished vw prep c s hF
      rw [hb]
      simp [hph, hF]
    · by_cases hb : (stepCmd vw prep c s).2 = true
      · obtain ⟨-, hph⟩ := (stepCmd_fired_iff vw prep c s).mp hb
        have hfinal := runSession_finished vw prep cs _ hph
        rw [hb]
        simp [hph, hF, hfinal]
      · have hb' : (stepCmd vw prep c s).2 = false := by
          simpa using hb
        have hph : (stepCmd vw prep c s).1.currentPhase ≠ SessionPhase.FINISHED :=
          fun hc => hb ((stepCmd_fired_iff vw prep c s).mpr ⟨hF, hc⟩)
        rw [hb']
        simp [hph, hF]

/-! ## Claim C8 -/

/-- C8: `finishEarly` in a non-FINISHED state unconditionally forces
`phase = FINISHED`, `phaseSecondsLeft = 0`, `totalSecondsLeft = 0`,
`paused = true` and fires the notification; in an already-FINISHED state
it changes nothing and fires nothing; and over any whole run (ticks and
commands in any order) the completion notification fires exactly once —
precisely when the run crosses from non-FINISHED into FINISHED, and never
again afterwards. -/
theorem finishEarly_forces_single_fire (vw : List Warmup) (prep : Nat)
    (s : SessionState) (cmds : List Cmd) :
    (s.currentPhase ≠ SessionPhase.FINISHED →
        handleFinishEarly s
          = ({ s with
                currentPhase := .FINISHED, phaseTimeLeft := 0, totalTimeLeft := 0,
                isPaused := true }, true))
      ∧ (s.currentPhase = SessionPhase.FINISHED → handleFinishEarly s = (s, false))
      ∧ (runSession vw prep cmds s).2
          = (if s.currentPhase ≠ SessionPhase.FINISHED
                ∧ (runSession vw prep cmds s).1.currentPhase = SessionPhase.FINISHED
             then 1 else 0) :=
  ⟨fun h => by rw [handleFinishEarly, if_neg h],
    fun h => by rw [handleFinishEarly, if_pos h],
    runSession_fires vw prep cmds s⟩

/-! ## Supporting lemmas: tick-by-tick runs -/

/-- The state reached by the tick that ends a phase of length `n`
(the transition branch of the tick, with `n` seconds already deducted
from `totalTimeLeft` over the whole phase). -/
def transStateAux (vw : List Warmup) (prep n : Nat) (s : SessionState) : SessionState :=
  let core := calculateNextWarmupState vw prep s
  { currentWarmupIndex := core.currentWarmupIndex, currentSet := core.currentSet,
    currentRep := core.currentRep, currentPhase := core.currentPhase,
    phaseTimeLeft := core.phaseTimeLeft,
    totalTimeLeft :=
      if core.currentPhase = .FINISHED then 0 else s.totalTimeLeft - n,
    isPaused := s.isPaused }

/-- A tick with at least 2 seconds left in the phase only decrements. -/
theorem tick_decrement (vw : List Warmup) (prep : Nat) (s : SessionState)
    (hp : s.isPaused = false) (hf : s.currentPhase ≠ SessionPhase.FINISHED)
    (h2 : 2 ≤ s.phaseTimeLeft) :
    tick vw prep s
      = { s with phaseTimeLeft := s.phaseTimeLeft - 1,
                 totalTimeLeft := s.totalTimeLeft - 1 } := by
  unfold tick tickPair
  rw [if_neg (by simp [hp, hf])]
  dsimp only
  rw [if_pos (by omega)]

/-- A tick with at most 1 second left in the phase transitions. -/
theorem tick_transition (vw : List Warmup) (prep : Nat) (s : SessionState)
    (hp : s.isPaused = false) (hf : s.currentPhase ≠ SessionPhase.FINISHED)
    (h1 : s.phaseTimeLeft ≤ 1) :
    tick vw prep s = transStateAux vw prep 1 s := by
  unfold tick tickPair transStateAux
  rw [if_neg (by simp [hp, hf])]
  dsimp only
  rw [if_neg (by omega)]

/-- Shifting a phase-ending transition across one decrement tick. -/
theorem transStateAux_shift (vw : List Warmup) (prep m : Nat) (s : SessionState) :
    transStateAux vw prep m
        { s with phaseTimeLeft := s.phaseTimeLeft - 1,
                 totalTimeLeft := s.totalTimeLeft - 1 }
      = transStateAux vw prep (m + 1) s := by
  unfold transStateAux
  dsimp only
  rw [calculateNextWarmupState_counters]
  simp only [SessionState.mk.injEq, and_true, true_and]
  split_ifs
  · rfl
  · show s.totalTimeLeft - 1 - m = s.totalTimeLeft - (m + 1)
    omega

/-- Running an unpaused, unfinished phase of length `n`: the first `n - 1`
ticks only count down, and the `n`-th tick performs the transition. -/
theorem tick_countdown (vw : List Warmup) (prep : Nat) :
    ∀ (n : Nat) (s : SessionState), s.isPaused = false →
      s.currentPhase ≠ SessionPhase.FINISHED → 1 ≤ n → s.phaseTimeLeft = n →
      (∀ k, k < n → (tick vw prep)^[k] s
          = { s with phaseTimeLeft := s.phaseTimeLeft - k,
                     totalTimeLeft := s.totalTimeLeft - k })
        ∧ (tick vw prep)^[n] s = transStateAux vw prep n s := by
  intro n
  induction n with
  | zero => intro s _ _ h1 _; omega
  | succ m ih =>
    intro s hp hf h1 hpt
    rcases Nat.eq_zero_or_pos m with hm | hm
    · subst hm
      constructor
      · intro k hk
        have hk0 : k = 0 := by omega
        subst hk0
        simp
      · rw [Function.iterate_one]
        exact tick_transition vw prep s hp hf (by omega)
    · have hstep : tick vw prep s
          = { s with phaseTimeLeft := s.phaseTimeLeft - 1,
                     totalTimeLeft := s.totalTimeLeft - 1 } :=
        tick_decrement vw prep s hp hf (by omega)
      obtain ⟨ihk, ihn⟩ := ih
        { s with phaseTimeLeft := s.phaseTimeLeft - 1,
                 totalTimeLeft := s.totalTimeLeft - 1 }
        hp hf (by omega) (by simp; omega)
      constructor
      · intro k hk
        cases k with
        | zero => simp
        | succ j =>
          rw [Function.iterate_succ_apply, hstep, ihk j (by omega)]
          simp only [SessionState.mk.injEq, and_true, true_and]
          constructor
          · show s.phaseTimeLeft - 1 - j = s.phaseTimeLeft - (j + 1)
            omega
          · show s.totalTimeLeft - 1 - j = s.totalTimeLeft - (j + 1)
            omega
      · rw [Function.iterate_succ_apply, hstep, ihn,
          transStateAux_shift vw prep m s]

/-- A finished session ignores ticks. -/
theorem tick_finished (vw : List Warmup) (prep : Nat) (s : SessionState)
    (h : s.currentPhase = SessionPhase.FINISHED) : tick vw prep s = s := by
  unfold tick tickPair
  rw [if_pos (Or.inr h)]

/-- The deduplicated phase trace of a finished state is `[FINISHED]`. -/
theorem phaseTrace_finished (vw : List Warmup) (prep : Nat) :
    ∀ (m : Nat) (s : SessionState), s.currentPhase = SessionPhase.FINISHED →
      phaseTrace vw prep m s = [SessionPhase.FINISHED] := by
  intro m
  induction m with
  | zero => intro s h; rw [phaseTrace, h]
  | succ k ih =>
    intro s h
    simp only [phaseTrace]
    rw [tick_finished vw prep s h, if_pos rfl]
    exact ih s h

/-- Consuming one whole phase of the trace: `n` ticks of a phase of
length `n` print the current phase once and continue from the phase-end
transition state. -/
theorem phaseTrace_segment (vw : List Warmup) (prep : Nat) :
    ∀ (n : Nat) (s : SessionState) (m : Nat), s.isPaused = false →
      s.currentPhase ≠ SessionPhase.FINISHED → 1 ≤ n → s.phaseTimeLeft = n →
      (transStateAux vw prep n s).currentPhase ≠ s.currentPhase →
      phaseTrace vw prep (n + m) s
        = s.currentPhase :: phaseTrace vw prep m (transStateAux vw prep n s) := by
  intro n
  induction n with
  | zero => intro s m _ _ h1 _ _; omega
  | succ k ih =>
    intro s m hp hf h1 hpt hch
    rcases Nat.eq_zero_or_pos k with hk | hk
    · subst hk
      have hone : (1 : Nat) + m = m + 1 := Nat.add_comm 1 m
      rw [hone]
      simp only [phaseTrace]
      rw [tick_transition vw prep s hp hf (by omega), if_neg hch]
    · have hstep : tick vw prep s
          = { s with phaseTimeLeft := s.phaseTimeLeft - 1,
                     totalTimeLeft := s.totalTimeLeft - 1 } :=
        tick_decrement vw prep s hp hf (by omega)
      have hkm : k + 1 + m = (k + m) + 1 := by omega
      rw [hkm]
      simp only [phaseTrace]
      rw [hstep, if_pos rfl]
      have hch' : (transStateAux vw prep k
            { s with phaseTimeLeft := s.phaseTimeLeft - 1,
                     totalTimeLeft := s.totalTimeLeft - 1 }).currentPhase
          ≠ ({ s with
                phaseTimeLeft := s.phaseTimeLeft - 1,
                totalTimeLeft := s.totalTimeLeft - 1 } : SessionState).currentPhase := by
        rw [transStateAux_shift vw prep k s]
        exact hch
      have hmain := ih
        { s with
            phaseTimeLeft := s.phaseTimeLeft - 1,
            totalTimeLeft := s.totalTimeLeft - 1 }
        m hp hf hk (by simp; omega) hch'
      rw [hmain, transStateAux_shift vw prep k s]

/-! ## Claim C1 -/

/-- The single session item of the round-trip claim: `Reps = 2`,
`Sets = 1`, work `w`, inter-rep rest `r`, inter-set rest `q`. -/
def singleItem (w r q : Nat) : Warmup :=
  { Description := "", Additional_Info := "", GripType := "", EdgeType := "",
    Duration_s := w, Rest_s := r, Reps := 2, Sets := 1, RestBetweenSets_s := q,
    Intensity_Modifier := "", target := [] }

/-- C1: starting a session on one valid item with `reps = 2, sets = 1`
(arbitrary positive work `w`, inter-rep rest `r` and prep `p`; `q`
arbitrary), ticking second by second visits exactly the phases
`PREP, WORK, REST_REP, WORK, FINISHED`; after `p + w + r + w` ticks the
phase first becomes FINISHED — no earlier tick shows FINISHED — and
`totalSecondsLeft` is exactly 0 in that state. -/
theorem singleItem_roundtrip (p w r q : Nat)
    (hp1 : 1 ≤ p) (hw1 : 1 ≤ w) (hr1 : 1 ≤ r) :
    phaseTrace [singleItem w r q] p (p + (w + (r + w)))
        (initialState [singleItem w r q] p)
      = [SessionPhase.PREP, SessionPhase.WORK, SessionPhase.REST_REP,
         SessionPhase.WORK, SessionPhase.FINISHED]
    ∧ ((tick [singleItem w r q] p)^[p + (w + (r + w))]
        (initialState [singleItem w r q] p)).currentPhase = SessionPhase.FINISHED
    ∧ ((tick [singleItem w r q] p)^[p + (w + (r + w))]
        (initialState [singleItem w r q] p)).totalTimeLeft = 0
    ∧ ∀ k, k < p + (w + (r + w)) →
        ((tick [singleItem w r q] p)^[k]
          (initialState [singleItem w r q] p)).currentPhase
          ≠ SessionPhase.FINISHED := by
  have hinit : initialState [singleItem w r q] p
      = ⟨0, 1, 1, .PREP, p,
         calculateTotalWarmupDuration [singleItem w r q] p, false⟩ := rfl
  rw [hinit]
  generalize calculateTotalWarmupDuration [singleItem w r q] p = T
  have ht1 : transStateAux [singleItem w r q] p p
      (⟨0, 1, 1, .PREP, p, T, false⟩ : SessionState)
      = ⟨0, 1, 1, .WORK, w, T - p, false⟩ := rfl
  have ht2 : transStateAux [singleItem w r q] p w
      (⟨0, 1, 1, .WORK, w, T - p, false⟩ : SessionState)
      = ⟨0, 1, 2, .REST_REP, r, T - p - w, false⟩ := rfl
  have ht3 : transStateAux [singleItem w r q] p r
      (⟨0, 1, 2, .REST_REP, r, T - p - w, false⟩ : SessionState)
      = ⟨0, 1, 2, .WORK, w, T - p - w - r, false⟩ := rfl
  have ht4 : transStateAux [singleItem w r q] p w
      (⟨0, 1, 2, .WORK, w, T - p - w - r, false⟩ : SessionState)
      = ⟨0, 1, 2, .FINISHED, 0, 0, false⟩ := rfl
  have hrun1 : (tick [singleItem w r q] p)^[p]
      (⟨0, 1, 1, .PREP, p, T, false⟩ : SessionState)
      = ⟨0, 1, 1, .WORK, w, T - p, false⟩ := by
    rw [(tick_countdown [singleItem w r q] p p _ rfl (by simp) hp1 rfl).2, ht1]
  have hrun2 : (tick [singleItem w r q] p)^[w]
      (⟨0, 1, 1, .WORK, w, T - p, false⟩ : SessionState)
      = ⟨0, 1, 2, .REST_REP, r, T - p - w, false⟩ := by
    rw [(tick_countdown [singleItem w r q] p w _ rfl (by simp) hw1 rfl).2, ht2]
  have hrun3 : (tick [singleItem w r q] p)^[r]
      (⟨0, 1, 2, .REST_REP, r, T - p - w, false⟩ : SessionState)
      = ⟨0, 1, 2, .WORK, w, T - p - w - r, false⟩ := by
    rw [(tick_countdown [singleItem w r q] p r _ rfl (by simp) hr1 rfl).2, ht3]
  have hrun4 : (tick [singleItem w r q] p)^[w]
      (⟨0, 1, 2, .WORK, w, T - p - w - r, false⟩ : SessionState)
      = ⟨0, 1, 2, .FINISHED, 0, 0, false⟩ := by
    rw [(tick_countdown [singleItem w r q] p w _ rfl (by simp) hw1 rfl).2, ht4]
  have hiter : (tick [singleItem w r q] p)^[p + (w + (r + w))]
      (⟨0, 1, 1, .PREP, p, T, false⟩ : SessionState)
      = ⟨0, 1, 2, .FINISHED, 0, 0, false⟩ := by
    have hcomm : p + (w + (r + w)) = w + (r + (w + p)) := by omega
    rw [hcomm, Function.iterate_add_apply, Function.iterate_add_apply,
      Function.iterate_add_apply, hrun1, hrun2, hrun3, hrun4]
  refine ⟨?_, ?_, ?_, ?_⟩
  · rw [phaseTrace_segment [singleItem w r q] p p _ (w + (r + w)) rfl (by simp)
        hp1 rfl (by rw [ht1]; simp), ht1,
      phaseTrace_segment [singleItem w r q] p w _ (r + w) rfl (by simp)
        hw1 rfl (by rw [ht2]; simp), ht2,
      phaseTrace_segment [singleItem w r q] p r _ w rfl (by simp)
        hr1 rfl (by rw [ht3]; simp), ht3]
    have hseg4 := phaseTrace_segment [singleItem w r q] p w
      (⟨0, 1, 2, .WORK, w, T - p - w - r, false⟩ : SessionState) 0 rfl (by simp)
      hw1 rfl (by rw [ht4]; simp)
    rw [Nat.add_zero] at hseg4
    rw [hseg4, ht4]
    rfl
  · rw [hiter]
  · rw [hiter]
  · intro k hk
    by_cases hk1 : k < p
    · rw [(tick_countdown [singleItem w r q] p p _ rfl (by simp) hp1 rfl).1 k hk1]
      simp
    · by_cases hk2 : k < p + w
      · have hk' : k = (k - p) + p := by omega
        rw [hk', Function.iterate_add_apply, hrun1,
          (tick_countdown [singleItem w r q] p w _ rfl (by simp) hw1 rfl).1
            (k - p) (by omega)]
        simp
      · by_cases hk3 : k < p + w + r
        · have hk' : k = (k - p - w) + (w + p) := by omega
          rw [hk', Function.iterate_add_apply, Function.iterate_add_apply, hrun1,
            hrun2,
            (tick_countdown [singleItem w r q] p r _ rfl (by simp) hr1 rfl).1
              (k - p - w) (by omega)]
          simp
        · have hk' : k = (k - p - w - r) + (r + (w + p)) := by omega
          rw [hk', Function.iterate_add_apply, Function.iterate_add_apply,
            Function.iterate_add_apply, hrun1, hrun2, hrun3,
            (tick_countdown [singleItem w r q] p w _ rfl (by simp) hw1 rfl).1
              (k - p - w - r) (by omega)]
          simp

/-- C1 witness: the round-trip theorem at `p = w = r = 2`, `q = 0`. -/
theorem singleItem_roundtrip_witness :
    phaseTrace [singleItem 2 2 0] 2 (2 + (2 + (2 + 2)))
        (initialState [singleItem 2 2 0] 2)
      = [SessionPhase.PREP, SessionPhase.WORK, SessionPhase.REST_REP,
         SessionPhase.WORK, SessionPhase.FINISHED]
    ∧ ((tick [singleItem 2 2 0] 2)^[2 + (2 + (2 + 2))]
        (initialState [singleItem 2 2 0] 2)).currentPhase = SessionPhase.FINISHED
    ∧ ((tick [singleItem 2 2 0] 2)^[2 + (2 + (2 + 2))]
        (initialState [singleItem 2 2 0] 2)).totalTimeLeft = 0
    ∧ ∀ k, k < 2 + (2 + (2 + 2)) →
        ((tick [singleItem 2 2 0] 2)^[k]
          (initialState [singleItem 2 2 0] 2)).currentPhase
          ≠ SessionPhase.FINISHED :=
  singleItem_roundtrip 2 2 2 0 (by decide) (by decide) (by decide)

end Xvat
